import Mathlib

/-!
Shallow embedding of `src/app.py` (a Flask student-finance tracker) and
verification of the specification's claims about it.

Conventions of the embedding:
* Python `float` amounts are modelled as exact rationals (`ℚ`); the source's
  binary floating point is a documented defect in the spec (§9), and no claim
  settled here depends on rounding behaviour.
* Form fields that the source parses with `float(...)` or
  `datetime.strptime(...)` are modelled as `Option`-valued parse results:
  `none` stands for the `ValueError` the Python parse raises.  The field
  `tuition_percent` is read with `request.form.get('tuition_percent', '0')`,
  so an omitted field is modelled as `some 0` (the default string `'0'`
  parses to zero).
* A request handler that raises before `db.session.commit()` persists
  nothing: Flask-SQLAlchemy rolls back the uncommitted session when the
  request fails.  Such handlers are modelled as `Except Err _` values whose
  `.error` outcome carries no records.
* `db.session.commit()` enforces the schema.  `Transaction.user_id` is
  declared `nullable=False` (`app.py` line 48) and no request handler ever
  assigns it, so every INSERT of a handler-built record carries NULL in a
  NOT NULL column and the commit raises `IntegrityError`; the failed request
  rolls back and persists nothing.  `commitRows` models this check, and each
  insert handler is the composition of its staging logic with `commitRows`:
  a handler's `.ok` outcome means the staged rows passed the constraint and
  were committed.
* The ledger store is the external collaborator of spec §6; it is modelled as
  a plain list of transactions (append = list append).  The date-descending
  presentation order of `Transaction.query.order_by(Transaction.date.desc())`
  is omitted: every aggregate below is order-independent and no claim
  concerns the ordering itself.
-/

namespace StudentFinance

/-- Calendar date, as produced by `datetime.strptime(date, '%Y-%m-%d').date()`
in `app.py`.  No claim inspects the components, only passes them through. -/
structure Date where
  year : Nat
  month : Nat
  day : Nat
deriving DecidableEq, Repr

/-- Embedding of the `Transaction` ORM model (`app.py` lines 37-48):
`id` is assigned by the store and modelled separately where needed
(`delete_transaction` works on `Nat × Transaction` pairs); `type` is the
kind string `'Income'`/`'Expense'`; `allocation` is the nullable string
column; `user_id` is the owner foreign key, held here as the ORM attribute
(unset = `none`) — none of the request handlers in `app.py` ever sets it,
and since the column is declared `nullable=False`, committing such a record
raises `IntegrityError` (see `commitRows`). -/
structure Transaction where
  date : Date
  category : String
  description : String
  amount : ℚ
  type : String
  allocation : Option String
  user_id : Option Nat
deriving DecidableEq, Repr

/-- Error outcomes of the request handlers, named for the Python exception
that surfaces them:
* `invalidAmount` — `ValueError` from `float(request.form['amount'])` or
  `float(request.form['transfer_amount'])`;
* `invalidPercent` — `ValueError` from `float(tuition_percent_raw)`;
* `invalidDate` — `ValueError` from `datetime.strptime(date, '%Y-%m-%d')`;
* `unboundLocalAllocation` — `UnboundLocalError` reading the local
  `allocation` at `app.py` line 270, which the split branch never assigns;
* `integrityError` — `IntegrityError` raised by `db.session.commit()` when a
  staged row has NULL in the NOT NULL `user_id` column (`app.py` line 48);
* `notFound404` — the HTTP 404 aborted by `Transaction.query.get_or_404`. -/
inductive Err where
  | invalidAmount
  | invalidPercent
  | invalidDate
  | unboundLocalAllocation
  | integrityError
  | notFound404
deriving DecidableEq, Repr

/-- The POST form read by `index()` (`app.py` lines 212-219), with fallible
parses already applied (see the file header): `amount` is the result of
`float(request.form['amount'])`, `date` of `strptime`, and
`tuitionPercentRaw` of `float(request.form.get('tuition_percent', '0'))`
(an omitted field is `some 0`). -/
structure RawForm where
  date : Option Date
  type : String
  category : String
  description : String
  amount : Option ℚ
  tuitionPercentRaw : Option ℚ
deriving DecidableEq, Repr

/-- Embedding of `db.session.commit()` applied to the rows staged by an
insert handler.  `Transaction.user_id` is declared `nullable=False`
(`app.py` line 48); a staged row whose `user_id` attribute was never
assigned is written as NULL, violating the NOT NULL constraint, and the
commit raises `IntegrityError` — the failed request rolls back and nothing
is persisted.  Only when every row carries an owner does the commit
succeed and persist the rows. -/
def commitRows (rows : List Transaction) : Except Err (List Transaction) :=
  if rows.all (fun t => t.user_id.isSome) then .ok rows
  else .error .integrityError

/-- Embedding of the staging logic of the POST branch of `index()`
(`app.py` lines 210-273): the allocation resolver, up to but not including
`db.session.commit()`.  Parses happen in source order (amount, then
tuition_percent, then date), each raising `ValueError` on failure before any
record is staged.  In the split branch (`type == 'Income'` and
`0 < tuition_percent < 1.0`, lines 225-248) the source stages the Tuition
and General records on the session, but then falls through to lines 264-273,
which construct `new_transaction` from the local `allocation` — a variable
only ever assigned in the `else` branch (lines 251-262).  Reading it raises
`UnboundLocalError` before the commit, and the staged records roll back: the
net effect is an error with nothing persisted.  In the non-split branches
exactly the one `new_transaction` is staged (with `user_id` unset — line 264
passes no `user_id` keyword). -/
def resolveIndexStaged (f : RawForm) : Except Err (List Transaction) :=
  match f.amount with
  | none => .error .invalidAmount
  | some amount =>
    match f.tuitionPercentRaw with
    | none => .error .invalidPercent
    | some raw =>
      let tuition_percent : ℚ := raw / 100
      match f.date with
      | none => .error .invalidDate
      | some input_date =>
        if f.type = "Income" ∧ 0 < tuition_percent ∧ tuition_percent < 1 then
          .error .unboundLocalAllocation
        else
          let allocation : Option String :=
            if f.type = "Income" then
              if tuition_percent = 1 then some "Tuition" else some "General"
            else
              none
          .ok [{ date := input_date, category := f.category,
                 description := f.description, amount := amount,
                 type := f.type, allocation := allocation, user_id := none }]

/-- Embedding of the full POST branch of `index()` (`app.py` lines
210-275): the staging logic followed by `db.session.commit()` (line 274).
An `.ok` outcome means the staged records were committed (persisted); every
`.error` outcome persists nothing.  Because the staged records never carry
a `user_id`, the commit step always raises `IntegrityError` in this
revision. -/
def resolveIndex (f : RawForm) : Except Err (List Transaction) :=
  match resolveIndexStaged f with
  | .error e => .error e
  | .ok rows => commitRows rows

/-- The pair of records `transfer_to_tuition` stages for a
parsed amount (`app.py` lines 298-317): the Expense/General leg and the
Income/Tuition leg, both dated `today` and carrying the same amount. -/
def transferLegs (today : Date) (amount : ℚ) : List Transaction :=
  [{ date := today, category := "Transfer",
     description := "Transfer to Tuition Fund (from General)",
     amount := amount, type := "Expense", allocation := some "General",
     user_id := none },
   { date := today, category := "Transfer",
     description := "Tuition Payment (from General Balance)",
     amount := amount, type := "Income", allocation := some "Tuition",
     user_id := none }]

/-- Embedding of `transfer_to_tuition()` (`app.py` lines 292-320).  `raw` is
the parse result of `float(request.form['transfer_amount'])` (`none` =
`ValueError`); `today` is `datetime.utcnow().date()`.  The handler performs
no range check on the amount: any parsed value — positive, zero or negative —
stages the Expense/General and Income/Tuition pair and proceeds to
`db.session.commit()` (line 319), which is modelled by `commitRows` (both
legs are built without a `user_id`, so in this revision the commit raises
`IntegrityError` and neither leg persists). -/
def transfer_to_tuition (today : Date) (raw : Option ℚ) :
    Except Err (List Transaction) :=
  match raw with
  | none => .error .invalidAmount
  | some amount => commitRows (transferLegs today amount)

/-- The summary figures computed by `get_financial_summary()` (`app.py`
lines 51-87), with the source's local-variable names.  (Spec names:
`total_tuition_cost` = totalTuitionCost, `tuition_aid_applied` =
tuitionAidApplied, `total_tuition_left` = tuitionRemaining,
`general_income` = generalIncome, `general_expenses` = generalExpenses,
`total_balance` = generalBalance.)  The chart-data category groupings are
not modelled: no settled claim concerns them. -/
structure Summary where
  total_tuition_cost : ℚ
  tuition_aid_applied : ℚ
  total_tuition_left : ℚ
  general_income : ℚ
  general_expenses : ℚ
  total_balance : ℚ
deriving DecidableEq, Repr

/-- Embedding of `get_financial_summary()` (`app.py` lines 51-87).  Note the
query `Transaction.query.order_by(Transaction.date.desc()).all()` has no
owner filter: `transactions` is every row in the table, across all users,
and the function is applied to the full table below. -/
def get_financial_summary (transactions : List Transaction) : Summary :=
  let total_tuition_cost :=
    ((transactions.filter
        (fun t => t.type == "Expense" && t.category == "Tuition")).map
      (fun t => t.amount)).sum
  let tuition_aid_applied :=
    ((transactions.filter
        (fun t => t.type == "Income" && t.allocation == some "Tuition")).map
      (fun t => t.amount)).sum
  let general_income :=
    ((transactions.filter
        (fun t => t.type == "Income" && t.allocation == some "General")).map
      (fun t => t.amount)).sum
  let general_expenses :=
    ((transactions.filter
        (fun t => t.type == "Expense" && t.category != "Tuition")).map
      (fun t => t.amount)).sum
  { total_tuition_cost := total_tuition_cost
    tuition_aid_applied := tuition_aid_applied
    total_tuition_left := total_tuition_cost - tuition_aid_applied
    general_income := general_income
    general_expenses := general_expenses
    total_balance := general_income - general_expenses }

/-- Embedding of the transaction list the dashboard shows
(`Transaction.query.order_by(...).all()` inside `get_financial_summary`):
every row of the table, with no owner filter. -/
def dashboard_transactions (table : List Transaction) : List Transaction :=
  table

/-- Embedding of `delete_transaction(id)` (`app.py` lines 323-329).  The
ledger is the table rows with their store-assigned ids.
`Transaction.query.get_or_404(id)` aborts the request with HTTP 404 when no
row has the id; otherwise the row is deleted and committed. -/
def delete_transaction (ledger : List (Nat × Transaction)) (i : Nat) :
    Except Err (List (Nat × Transaction)) :=
  match ledger.find? (fun p => p.1 == i) with
  | none => .error .notFound404
  | some _ => .ok (ledger.filter (fun p => p.1 != i))

/-- Embedding of the `User` ORM model (`app.py` lines 26-30): username and
the stored password column (a plain string — `register` writes the submitted
password into it unchanged). -/
structure User where
  username : String
  password : String
deriving DecidableEq, Repr

/-- Embedding of the POST branch of `register()` (`app.py` lines 177-198):
if a user with the username exists the request is refused (flash warning,
nothing written); otherwise `User(username=username, password=password)` is
committed — the password stored verbatim.  The `Bool` reports whether the
account was created. -/
def register (users : List User) (username password : String) :
    List User × Bool :=
  match users.find? (fun u => u.username == username) with
  | some _ => (users, false)
  | none => (users ++ [{ username := username, password := password }], true)

/-- Embedding of the POST branch of `login()` (`app.py` lines 158-175):
`User.query.filter_by(username=username).first()` is the first user with the
username, and login succeeds exactly when such a user exists and
`user.password == password` as strings. -/
def loginOk (users : List User) (username password : String) : Bool :=
  match users.find? (fun u => u.username == username) with
  | some u => u.password == password
  | none => false

/-- C1: the claim says a split income (tuition fraction strictly between 0
and 1) persists exactly two Income records.  In the code the split branch
stages the two records but then falls through to the `new_transaction` block,
whose `allocation=allocation` keyword reads a local that the split branch
never assigned: the request raises `UnboundLocalError` before
`db.session.commit()` and nothing is persisted.  This theorem evaluates the
embedded handler on the whole split region: every Income intent with parsed
amount, date, and tuition percent strictly between 0 and 100 resolves to the
`UnboundLocalError` outcome, with no records. -/
theorem C1_split_income_raises (f : RawForm) (a r : ℚ) (d : Date)
    (htype : f.type = "Income") (ha : f.amount = some a)
    (hr : f.tuitionPercentRaw = some r) (hd : f.date = some d)
    (h0 : 0 < r / 100) (h1 : r / 100 < 1) :
    resolveIndex f = .error .unboundLocalAllocation := by
  obtain ⟨fd, ft, fc, fdesc, fa, fr⟩ := f
  cases ha; cases hr; cases hd; cases htype
  simp [resolveIndex, resolveIndexStaged, h0, h1]

/-- C1 witness: a concrete split intent — Income of 1000 at 30% tuition —
hits the `UnboundLocalError` branch. -/
theorem C1_split_income_raises_witness :
    resolveIndex { date := some ⟨2024, 9, 1⟩, type := "Income",
                   category := "Job", description := "September paycheck",
                   amount := some 1000, tuitionPercentRaw := some 30 } =
      .error .unboundLocalAllocation :=
  C1_split_income_raises _ 1000 30 ⟨2024, 9, 1⟩ rfl rfl rfl rfl
    (by norm_num) (by norm_num)

/-- C4 counterexample: the claim says a negative submitted amount is
rejected with `InvalidAmount` before any record is created.  The code only
runs `float(request.form['amount'])` and never checks the sign: an Expense
intent with amount -5 passes the resolver, a record carrying -5 is created
and staged, and the failure that then ends the request is the commit's
`IntegrityError` (unset NOT NULL `user_id`) — not the claimed amount
rejection. -/
theorem C4_counterexample :
    resolveIndexStaged { date := some ⟨2024, 1, 1⟩, type := "Expense",
                         category := "Food",
                         description := "negative accepted",
                         amount := some (-5), tuitionPercentRaw := some 0 } =
      .ok [{ date := ⟨2024, 1, 1⟩, category := "Food",
             description := "negative accepted", amount := -5,
             type := "Expense", allocation := none, user_id := none }] ∧
    resolveIndex { date := some ⟨2024, 1, 1⟩, type := "Expense",
                   category := "Food", description := "negative accepted",
                   amount := some (-5), tuitionPercentRaw := some 0 } =
      .error .integrityError := by
  constructor
  · norm_num [resolveIndexStaged]
    intro h
    exact absurd h (by decide)
  · norm_num [resolveIndex, resolveIndexStaged, commitRows]

/-- C4 amended: resolving fails with the amount parse error — persisting
nothing, before anything is staged — exactly when the submitted amount is
unparseable.  A parseable amount, negative included, is never rejected as an
amount error (the handler does no sign or range check), and in this revision
no intent is ever persisted: the resolved outcome is never `.ok`, since any
intent surviving the parses fails either at the split branch's
`UnboundLocalError` or at commit with `IntegrityError` on the never-assigned
NOT NULL `user_id`. -/
theorem C4_amount_error_iff_unparseable (f : RawForm) :
    (f.amount = none ↔ resolveIndex f = .error .invalidAmount) ∧
    (∀ l, resolveIndex f ≠ .ok l) := by
  obtain ⟨fd, ft, fc, fdesc, fa, fr⟩ := f
  cases fa with
  | none => simp [resolveIndex, resolveIndexStaged]
  | some a =>
    cases fr with
    | none => simp [resolveIndex, resolveIndexStaged]
    | some r =>
      cases fd with
      | none => simp [resolveIndex, resolveIndexStaged]
      | some d =>
        by_cases hsplit : ft = "Income" ∧ 0 < r / 100 ∧ r / 100 < 1
        · simp [resolveIndex, resolveIndexStaged, hsplit]
        · simp only [resolveIndex, resolveIndexStaged]
          rw [if_neg hsplit]
          simp [commitRows]

/-- C4 witness: a form with unparseable amount fails with the amount error;
a form with parsed amount -5 neither fails with the amount error nor ever
reaches a persisted (`.ok`) outcome. -/
theorem C4_amount_error_iff_unparseable_witness :
    resolveIndex { date := some ⟨2024, 1, 1⟩, type := "Income",
                   category := "Job", description := "pay", amount := none,
                   tuitionPercentRaw := some 0 } = .error .invalidAmount ∧
    resolveIndex { date := some ⟨2024, 1, 1⟩, type := "Expense",
                   category := "Food", description := "negative accepted",
                   amount := some (-5), tuitionPercentRaw := some 0 } ≠
      .error .invalidAmount ∧
    ∀ l,
      resolveIndex { date := some ⟨2024, 1, 1⟩, type := "Expense",
                     category := "Food",
                     description := "negative accepted",
                     amount := some (-5),
                     tuitionPercentRaw := some 0 } ≠ .ok l :=
  ⟨(C4_amount_error_iff_unparseable _).1.mp rfl,
   fun h => Option.noConfusion ((C4_amount_error_iff_unparseable _).1.mpr h),
   (C4_amount_error_iff_unparseable _).2⟩

/-- C5 counterexample: the claim says a transfer of zero fails with
`InvalidAmount`.  A transfer amount of 0 parses, is staged with no range
check anywhere, and the failure that ends the request is the commit's
`IntegrityError` (unset NOT NULL `user_id`) — not the claimed
`InvalidAmount` rejection. -/
theorem C5_counterexample :
    transfer_to_tuition ⟨2024, 1, 1⟩ (some 0) = .error .integrityError ∧
    transfer_to_tuition ⟨2024, 1, 1⟩ (some 0) ≠ .error .invalidAmount := by
  constructor
  · rfl
  · intro h
    exact absurd (Except.error.inj h) (by decide)

/-- C5 amended: a transfer request never persists the pair: an unparseable
amount fails at the parse, and every parsed amount — positive, zero or
negative alike, with no range check anywhere — stages the pair and then
fails at commit with `IntegrityError` on the never-assigned NOT NULL
`user_id`; in every case neither leg is persisted. -/
theorem C5_transfer_no_range_check (d : Date) (raw : Option ℚ) :
    (raw = none → transfer_to_tuition d raw = .error .invalidAmount) ∧
    (∀ A, raw = some A →
      transfer_to_tuition d raw = .error .integrityError) := by
  constructor
  · rintro rfl; rfl
  · rintro A rfl; rfl

/-- C5 witness: the unparseable case fails with the amount parse error, and
a parsed amount of -7 passes unvalidated to the commit, which fails with
`IntegrityError`. -/
theorem C5_transfer_no_range_check_witness :
    transfer_to_tuition ⟨2024, 1, 1⟩ none = .error .invalidAmount ∧
    transfer_to_tuition ⟨2024, 1, 1⟩ (some (-7)) =
      .error .integrityError :=
  ⟨(C5_transfer_no_range_check ⟨2024, 1, 1⟩ none).1 rfl,
   (C5_transfer_no_range_check ⟨2024, 1, 1⟩ (some (-7))).2 (-7) rfl⟩

/-- C6 counterexample: the claim says deleting an id not present in the
ledger completes without a user-visible error.  The code uses
`Transaction.query.get_or_404(id)`, which aborts the request with HTTP 404:
deleting id 1 from the empty ledger errors. -/
theorem C6_counterexample :
    delete_transaction [] 1 = .error .notFound404 := rfl

/-- C6 amended: deleting an id not present in the ledger fails with the 404
(NotFound) abort raised by `get_or_404` — a user-visible error, not a no-op
success — and, failing before any write, leaves the ledger unchanged. -/
theorem C6_delete_missing_id_404 (ledger : List (Nat × Transaction))
    (i : Nat) (h : ∀ p ∈ ledger, p.1 ≠ i) :
    delete_transaction ledger i = .error .notFound404 := by
  have hfind : ledger.find? (fun p => p.1 == i) = none := by
    rw [List.find?_eq_none]
    intro p hp
    simpa using h p hp
  simp [delete_transaction, hfind]

/-- C6 witness: deleting id 2 from a ledger holding only id 1 aborts with
the 404 error. -/
theorem C6_delete_missing_id_404_witness :
    delete_transaction
      [(1, { date := ⟨2024, 1, 1⟩, category := "Food",
             description := "lunch", amount := 10, type := "Expense",
             allocation := none, user_id := none })] 2 =
      .error .notFound404 :=
  C6_delete_missing_id_404 _ 2 (by decide)

/-- C7: the claim says tuition_percent = 100 yields exactly one persisted
record with allocation Tuition, and 0 (or omitted) exactly one persisted
record with allocation General.  The staging logic is exactly that — one
record, the claimed allocation, unannotated description, full amount — but
the record is never persisted: `db.session.commit()` raises
`IntegrityError` on the never-assigned NOT NULL `user_id`, so the request
fails with nothing written. -/
theorem C7_full_and_zero_percent_single_record (f : RawForm) (a : ℚ)
    (d : Date) (htype : f.type = "Income") (ha : f.amount = some a)
    (hd : f.date = some d) :
    (f.tuitionPercentRaw = some 100 →
      resolveIndexStaged f =
        .ok [{ date := d, category := f.category,
               description := f.description, amount := a, type := "Income",
               allocation := some "Tuition", user_id := none }] ∧
      resolveIndex f = .error .integrityError) ∧
    (f.tuitionPercentRaw = some 0 →
      resolveIndexStaged f =
        .ok [{ date := d, category := f.category,
               description := f.description, amount := a, type := "Income",
               allocation := some "General", user_id := none }] ∧
      resolveIndex f = .error .integrityError) := by
  obtain ⟨fd, ft, fc, fdesc, fa, fr⟩ := f
  cases ha; cases hd; cases htype
  constructor
  · rintro rfl
    constructor
    · norm_num [resolveIndexStaged]
    · norm_num [resolveIndex, resolveIndexStaged, commitRows]
  · rintro rfl
    constructor
    · norm_num [resolveIndexStaged]
    · norm_num [resolveIndex, resolveIndexStaged, commitRows]

/-- C7 witness: Income of 250 at 100% stages the single Tuition record and
the request fails at commit; the same intent at 0% stages the single
General record and likewise fails at commit. -/
theorem C7_full_and_zero_percent_single_record_witness :
    (resolveIndexStaged { date := some ⟨2024, 2, 2⟩, type := "Income",
                          category := "Gift", description := "birthday",
                          amount := some 250,
                          tuitionPercentRaw := some 100 } =
      .ok [{ date := ⟨2024, 2, 2⟩, category := "Gift",
             description := "birthday", amount := 250, type := "Income",
             allocation := some "Tuition", user_id := none }] ∧
     resolveIndex { date := some ⟨2024, 2, 2⟩, type := "Income",
                    category := "Gift", description := "birthday",
                    amount := some 250, tuitionPercentRaw := some 100 } =
      .error .integrityError) ∧
    (resolveIndexStaged { date := some ⟨2024, 2, 2⟩, type := "Income",
                          category := "Gift", description := "birthday",
                          amount := some 250,
                          tuitionPercentRaw := some 0 } =
      .ok [{ date := ⟨2024, 2, 2⟩, category := "Gift",
             description := "birthday", amount := 250, type := "Income",
             allocation := some "General", user_id := none }] ∧
     resolveIndex { date := some ⟨2024, 2, 2⟩, type := "Income",
                    category := "Gift", description := "birthday",
                    amount := some 250, tuitionPercentRaw := some 0 } =
      .error .integrityError) :=
  ⟨(C7_full_and_zero_percent_single_record _ 250 ⟨2024, 2, 2⟩ rfl rfl
      rfl).1 rfl,
   (C7_full_and_zero_percent_single_record _ 250 ⟨2024, 2, 2⟩ rfl rfl
      rfl).2 rfl⟩

/-- C9: an Income intent whose tuition_percent is outside 0..100 (strictly
negative or strictly above 100) is neither validated, clamped nor split: the
split guard `0 < tuition_percent < 1.0` is false, the `tuition_percent ==
1.0` check is false, and the resolver emits exactly one staged record
carrying the full amount with allocation General (spec §4.1: the resolver
produces the record set; persistence is the caller's responsibility).  The
second conjunct records that, as with every insert in this revision, the
subsequent commit then fails with `IntegrityError` on the never-assigned
`user_id` (see C3/C7). -/
theorem C9_out_of_range_percent_general (f : RawForm) (a r : ℚ) (d : Date)
    (htype : f.type = "Income") (ha : f.amount = some a)
    (hr : f.tuitionPercentRaw = some r) (hd : f.date = some d)
    (hrange : r < 0 ∨ 100 < r) :
    resolveIndexStaged f =
      .ok [{ date := d, category := f.category,
             description := f.description, amount := a, type := "Income",
             allocation := some "General", user_id := none }] ∧
    resolveIndex f = .error .integrityError := by
  obtain ⟨fd, ft, fc, fdesc, fa, fr'⟩ := f
  cases ha; cases hr; cases hd; cases htype
  have hstaged : resolveIndexStaged
      { date := some d, type := "Income", category := fc,
        description := fdesc, amount := some a,
        tuitionPercentRaw := some r } =
      .ok [{ date := d, category := fc, description := fdesc,
             amount := a, type := "Income", allocation := some "General",
             user_id := none }] := by
    rcases hrange with h | h
    · have h0 : ¬ (0 < r / 100) := by
        rw [not_lt]
        exact le_of_lt (div_neg_of_neg_of_pos h (by norm_num))
      have h1 : ¬ (r / 100 = 1) := by
        intro hc
        exact h0 (hc ▸ one_pos)
      simp [resolveIndexStaged, h0, h1]
    · have hgt : 1 < r / 100 := by
        rw [lt_div_iff₀ (by norm_num : (0 : ℚ) < 100)]
        linarith
      have h1 : ¬ (r / 100 < 1) := not_lt_of_gt hgt
      have h2 : ¬ (r / 100 = 1) := ne_of_gt hgt
      simp [resolveIndexStaged, h1, h2]
  refine ⟨hstaged, ?_⟩
  simp [resolveIndex, hstaged, commitRows]

/-- C9 witness: tuition_percent 150 on an Income of 80 stages the single
full-amount General record (and the request then fails at commit); so does
tuition_percent -10. -/
theorem C9_out_of_range_percent_general_witness :
    (resolveIndexStaged { date := some ⟨2024, 3, 3⟩, type := "Income",
                          category := "Job", description := "odd percent",
                          amount := some 80,
                          tuitionPercentRaw := some 150 } =
      .ok [{ date := ⟨2024, 3, 3⟩, category := "Job",
             description := "odd percent", amount := 80, type := "Income",
             allocation := some "General", user_id := none }] ∧
     resolveIndex { date := some ⟨2024, 3, 3⟩, type := "Income",
                    category := "Job", description := "odd percent",
                    amount := some 80, tuitionPercentRaw := some 150 } =
      .error .integrityError) ∧
    (resolveIndexStaged { date := some ⟨2024, 3, 3⟩, type := "Income",
                          category := "Job", description := "odd percent",
                          amount := some 80,
                          tuitionPercentRaw := some (-10) } =
      .ok [{ date := ⟨2024, 3, 3⟩, category := "Job",
             description := "odd percent", amount := 80, type := "Income",
             allocation := some "General", user_id := none }] ∧
     resolveIndex { date := some ⟨2024, 3, 3⟩, type := "Income",
                    category := "Job", description := "odd percent",
                    amount := some 80, tuitionPercentRaw := some (-10) } =
      .error .integrityError) :=
  ⟨C9_out_of_range_percent_general _ 80 150 ⟨2024, 3, 3⟩ rfl rfl rfl rfl
     (Or.inr (by norm_num)),
   C9_out_of_range_percent_general _ 80 (-10) ⟨2024, 3, 3⟩ rfl rfl rfl rfl
     (Or.inl (by norm_num))⟩

/-- C2: the six summary figures satisfy the spec's formulas: tuition cost
sums Expense records with category Tuition; tuition aid sums Income records
allocated Tuition; tuition remaining is their (unclamped) difference;
general income sums Income records allocated General; general expenses sums
Expense records with category other than Tuition; general balance is their
(unclamped) difference. -/
theorem C2_summary_formulas (ts : List Transaction) :
    (get_financial_summary ts).total_tuition_cost =
      ((ts.filter (fun t => t.type == "Expense" &&
          t.category == "Tuition")).map (fun t => t.amount)).sum ∧
    (get_financial_summary ts).tuition_aid_applied =
      ((ts.filter (fun t => t.type == "Income" &&
          t.allocation == some "Tuition")).map (fun t => t.amount)).sum ∧
    (get_financial_summary ts).total_tuition_left =
      (get_financial_summary ts).total_tuition_cost -
        (get_financial_summary ts).tuition_aid_applied ∧
    (get_financial_summary ts).general_income =
      ((ts.filter (fun t => t.type == "Income" &&
          t.allocation == some "General")).map (fun t => t.amount)).sum ∧
    (get_financial_summary ts).general_expenses =
      ((ts.filter (fun t => t.type == "Expense" &&
          t.category != "Tuition")).map (fun t => t.amount)).sum ∧
    (get_financial_summary ts).total_balance =
      (get_financial_summary ts).general_income -
        (get_financial_summary ts).general_expenses :=
  ⟨rfl, rfl, rfl, rfl, rfl, rfl⟩

/-- Summary of just the transfer pair: no tuition cost, A of tuition aid, no
general income, A of general expenses. -/
theorem summary_transferLegs (today : Date) (A : ℚ) :
    get_financial_summary (transferLegs today A) =
      { total_tuition_cost := 0, tuition_aid_applied := A,
        total_tuition_left := 0 - A, general_income := 0,
        general_expenses := A, total_balance := 0 - A } := by
  simp [get_financial_summary, transferLegs]

/-- C3: the claim says a positive transfer produces exactly two persisted
records — the Expense/General and Income/Tuition pair — and that appending
the pair to any ledger lowers the summarized general balance by A and the
remaining tuition by A.  The handler stages exactly that pair, and the pair
as data does shift both summary figures by -A in any ledger — but the pair
is never persisted: `db.session.commit()` raises `IntegrityError` because
neither staged leg carries the NOT NULL `user_id`, so the request fails and
the stored ledger is unchanged. -/
theorem C3_transfer_pair_integrity_error (A : ℚ) (hA : 0 < A)
    (today : Date) (L : List Transaction) :
    transferLegs today A =
      [{ date := today, category := "Transfer",
         description := "Transfer to Tuition Fund (from General)",
         amount := A, type := "Expense", allocation := some "General",
         user_id := none },
       { date := today, category := "Transfer",
         description := "Tuition Payment (from General Balance)",
         amount := A, type := "Income", allocation := some "Tuition",
         user_id := none }] ∧
    transfer_to_tuition today (some A) = .error .integrityError ∧
    (get_financial_summary (L ++ transferLegs today A)).total_balance =
      (get_financial_summary L).total_balance - A ∧
    (get_financial_summary (L ++ transferLegs today A)).total_tuition_left =
      (get_financial_summary L).total_tuition_left - A := by
  refine ⟨rfl, rfl, ?_, ?_⟩ <;>
  · simp [get_financial_summary, transferLegs, List.filter_append,
      List.map_append, List.sum_append]
    ring

/-- C3 witness: a transfer of 50 stages the pair, whose data would move both
balances of the empty ledger from 0 to -50, but the request fails at commit
with `IntegrityError`. -/
theorem C3_transfer_pair_integrity_error_witness :
    transferLegs ⟨2024, 1, 1⟩ 50 =
      [{ date := ⟨2024, 1, 1⟩, category := "Transfer",
         description := "Transfer to Tuition Fund (from General)",
         amount := 50, type := "Expense", allocation := some "General",
         user_id := none },
       { date := ⟨2024, 1, 1⟩, category := "Transfer",
         description := "Tuition Payment (from General Balance)",
         amount := 50, type := "Income", allocation := some "Tuition",
         user_id := none }] ∧
    transfer_to_tuition ⟨2024, 1, 1⟩ (some 50) = .error .integrityError ∧
    (get_financial_summary
        ([] ++ transferLegs ⟨2024, 1, 1⟩ 50)).total_balance =
      (get_financial_summary []).total_balance - 50 ∧
    (get_financial_summary
        ([] ++ transferLegs ⟨2024, 1, 1⟩ 50)).total_tuition_left =
      (get_financial_summary []).total_tuition_left - 50 :=
  C3_transfer_pair_integrity_error 50 (by norm_num) ⟨2024, 1, 1⟩ []

/-- A table row owned by a different user (user 2): used to show that the
dashboard query is not scoped to the requesting principal. -/
def other_user_row : Transaction :=
  { date := ⟨2024, 1, 1⟩, category := "Job",
    description := "another user's pay", amount := 500, type := "Income",
    allocation := some "General", user_id := some 2 }

/-- C8: the claim says two tables agreeing on user 1's rows give user 1
identical listings and summaries.  The code's
`Transaction.query.order_by(...).all()` carries no owner filter, so the
listing and summary range over every row of the table: the empty table and
the table holding only user 2's row agree on user 1's rows, yet produce a
different dashboard listing and a different summary (general income 0
versus 500). -/
theorem C8_summary_not_owner_scoped :
    List.filter (fun t => t.user_id == some 1) ([] : List Transaction) =
      List.filter (fun t => t.user_id == some 1) [other_user_row] ∧
    get_financial_summary ([] : List Transaction) ≠
      get_financial_summary [other_user_row] ∧
    dashboard_transactions ([] : List Transaction) ≠
      dashboard_transactions [other_user_row] := by
  refine ⟨rfl, ?_, ?_⟩
  · intro h
    have := congrArg Summary.general_income h
    simp [get_financial_summary, other_user_row] at this
  · intro h
    exact List.noConfusion h

/-- Helper for C10: under pairwise-distinct usernames — the invariant
`register` maintains through its uniqueness check and the unique column
constraint — `filter_by(username=...).first()`-based login succeeds exactly
when some stored user matches the username and, verbatim, the password. -/
theorem loginOk_eq_true_iff (u p : String) (users : List User)
    (hdist : users.Pairwise fun a b => a.username ≠ b.username) :
    loginOk users u p = true ↔
      ∃ w ∈ users, w.username = u ∧ w.password = p := by
  revert hdist
  induction users with
  | nil =>
    intro _
    simp [loginOk]
  | cons w ws ih =>
    intro hdist
    rcases List.pairwise_cons.mp hdist with ⟨hw, hws⟩
    by_cases h : w.username = u
    · have hfind : (w :: ws).find? (fun x => x.username == u) = some w :=
        List.find?_cons_of_pos _ (by simpa using h)
      simp only [loginOk, hfind]
      constructor
      · intro hp
        exact ⟨w, List.mem_cons_self w ws, h, by simpa using hp⟩
      · rintro ⟨x, hx, hxu, hxp⟩
        rcases List.mem_cons.mp hx with rfl | hx'
        · simpa using hxp
        · exact absurd (h.trans hxu.symm) (hw x hx')
    · have hstep : loginOk (w :: ws) u p = loginOk ws u p := by
        have hfind : (w :: ws).find? (fun x => x.username == u) =
            ws.find? (fun x => x.username == u) :=
          List.find?_cons_of_neg _ (by simpa using h)
        simp only [loginOk, hfind]
      rw [hstep, ih hws]
      constructor
      · rintro ⟨x, hx, hxu, hxp⟩
        exact ⟨x, List.mem_cons_of_mem w hx, hxu, hxp⟩
      · rintro ⟨x, hx, hxu, hxp⟩
        rcases List.mem_cons.mp hx with rfl | hx'
        · exact absurd hxu h
        · exact ⟨x, hx', hxu, hxp⟩

/-- C10: for any user table with distinct usernames (the invariant the
unique column and `register`'s existence check maintain): registering a
fresh username stores the submitted password verbatim — the committed row is
exactly `{username, password}` with no transformation — and login succeeds
for a (username, password) pair if and only if a user with that username
exists whose stored password string equals the submitted password. -/
theorem C10_plaintext_credentials (users : List User)
    (hdistinct : users.Pairwise fun a b => a.username ≠ b.username) :
    (∀ u p, users.find? (fun w => w.username == u) = none →
      register users u p =
        (users ++ [{ username := u, password := p }], true)) ∧
    (∀ u p, loginOk users u p = true ↔
      ∃ w ∈ users, w.username = u ∧ w.password = p) := by
  refine ⟨?_, fun u p => loginOk_eq_true_iff u p users hdistinct⟩
  intro u p hnone
  simp [register, hnone]

/-- C10 witness: on the table holding alice with password "hunter2",
registering bob stores "pw" verbatim, and alice's exact password logs in. -/
theorem C10_plaintext_credentials_witness :
    register [{ username := "alice", password := "hunter2" }] "bob" "pw" =
      ([{ username := "alice", password := "hunter2" },
        { username := "bob", password := "pw" }], true) ∧
    loginOk [{ username := "alice", password := "hunter2" }]
      "alice" "hunter2" = true := by
  have h := C10_plaintext_credentials
    [{ username := "alice", password := "hunter2" }] (by simp)
  exact ⟨h.1 "bob" "pw" (by decide),
    (h.2 "alice" "hunter2").mpr
      ⟨{ username := "alice", password := "hunter2" }, by simp, rfl, rfl⟩⟩

end StudentFinance
